import Mathlib

/-!
Shallow embedding of the Hypertension assistant (src/main.py).

The program is a chat front-end: `get_gemini_response` posts a query to the
Gemini endpoint with up to 3 attempts and exponential backoff, extracts the
first candidate's text and up to 3 deduplicated citation links, and
`process_query` appends the user turn and the bot turn to the session
transcript.  We embed the response-handling and transcript logic; the
network is modelled by an environment `env : Nat → AttemptOutcome` giving
the outcome of the i-th HTTP POST, and `time.sleep` / `requests.post`
side effects are recorded in the result (`waits`, `calls`).  Exceptions the
code does not catch (`IndexError` from `[0]` on an empty list, `KeyError`
from `['parts']` on a dict lacking the key) are modelled by `PyResult.exn`.
-/

/-- Value of `meta["initial_greeting"]` in main.py. -/
def meta_initial_greeting : String :=
  "👋 Hi! I'm your **Hypertension Assistant**. I use advanced AI to answer your questions about high blood pressure. Ask away!"

/-- Value of `meta["api_fail"]` in main.py. -/
def meta_api_fail : String :=
  "⚠️ I'm sorry, I cannot connect to the AI service right now. Please try again later. This application requires a successful connection to the Gemini API."

/-- Value of `meta["placeholder_fail"]` in main.py. -/
def meta_placeholder_fail : String :=
  "I'm sorry, the AI could not generate a clear answer to that query. Please rephrase your question or try a suggestion below."

/-- The `web` dict of a grounding attribution: `uri` and `title` keys, each
possibly absent (`source.get('web', {}).get('uri')` / `.get('title', 'Link')`). -/
structure Web where
  uri : Option String
  title : Option String
  deriving Repr, DecidableEq

/-- One entry of `groundingMetadata['groundingAttributions']`; the `web` key
may be absent (`source.get('web', {})` then yields the empty dict). -/
structure Attribution where
  web : Option Web
  deriving Repr, DecidableEq

/-- The `groundingMetadata` dict of a candidate; `groundingAttributions`
may be absent (`none`) or present; a present empty list is falsy in Python,
which coincides with the absent case for the code below. -/
structure GroundingMetadata where
  groundingAttributions : Option (List Attribution)
  deriving Repr, DecidableEq

/-- One element of `content['parts']`: the `text` key may be absent,
in which case `parts[0].get('text', meta['placeholder_fail'])` falls back. -/
structure ContentPart where
  text : Option String
  deriving Repr, DecidableEq

/-- The `content` dict of a candidate.  `parts = none` models a dict in which
the `'parts'` key is absent; `otherKeys` records whether the dict has any
other key, which decides its Python truthiness when `parts` is absent
(`candidate.get('content')` is tested for truthiness before the code indexes
`candidate['content']['parts']`, which raises `KeyError` when the key is
absent from a non-empty dict). -/
structure Content where
  parts : Option (List ContentPart)
  otherKeys : Bool
  deriving Repr, DecidableEq

/-- One element of the `candidates` list. `content = none` covers both an
absent `'content'` key and a falsy (empty/None) value, which the code treats
alike via `candidate.get('content')`. -/
structure Candidate where
  content : Option Content
  groundingMetadata : Option GroundingMetadata
  deriving Repr, DecidableEq

/-- A parsed 2xx response body.  `candidates = none` models a JSON object
without the `'candidates'` key, for which `result.get('candidates', [{}])`
substitutes the default one-element list `[{}]`. -/
structure GeminiResponse where
  candidates : Option (List Candidate)
  deriving Repr, DecidableEq

/-- Outcome of one `requests.post` attempt, as the surrounding `try` sees it:
a `requests.exceptions.RequestException` (connection error, timeout, or the
non-2xx statuses turned into exceptions by `raise_for_status`), a
`json.JSONDecodeError` from `response.json()`, or a parsed body. -/
inductive AttemptOutcome where
  | transportError
  | parseError
  | body (r : GeminiResponse)
  deriving Repr, DecidableEq

/-- A Python computation that either returns a value or escapes with an
uncaught exception (named by its class). -/
inductive PyResult (α : Type) where
  | ok (a : α)
  | exn (e : String)
  deriving Repr, DecidableEq

/-- A citation as the spec's data model has it: title and uri. -/
structure Citation where
  title : String
  uri : String
  deriving Repr, DecidableEq

/-- The citation-accumulating `for source in sources:` loop of
`get_gemini_response` (main.py lines 89-97), carried out on the `citations`
string and the `unique_uris` set (modelled as the list of uris added so far;
only unseen uris are ever added, so list length equals set size).  An
attribution contributes only when its uri is truthy (present and non-empty)
and unseen; after the third distinct uri the loop breaks. -/
def citeLoop : List Attribution → String → List String → String
  | [], citations, _ => citations
  | source :: rest, citations, unique_uris =>
    let w := source.web.getD { uri := none, title := none }
    let title := w.title.getD "Link"
    match w.uri with
    | none => citeLoop rest citations unique_uris
    | some uri =>
      if uri ≠ "" ∧ uri ∉ unique_uris then
        let citations2 := citations ++ "- [" ++ title ++ "](" ++ uri ++ ")\n"
        if 3 ≤ (uri :: unique_uris).length then citations2
        else citeLoop rest citations2 (uri :: unique_uris)
      else citeLoop rest citations unique_uris

/-- The `citations` string appended to the answer text: empty when `sources`
is falsy, otherwise the `"**Sources:**"` header followed by the loop's
accumulated lines (main.py lines 84-97). -/
def citationsBlock (sources : List Attribution) : String :=
  if sources = [] then "" else "\n\n---\n**Sources:**\n" ++ citeLoop sources "" []

/-- The `sources` list read from a candidate: `groundingAttributions` when
`groundingMetadata` and that key are both truthy, else the empty list
(main.py lines 79-82). -/
def sourcesOf (c : Candidate) : List Attribution :=
  match c.groundingMetadata with
  | none => []
  | some gm => gm.groundingAttributions.getD []

/-- What one iteration of the retry loop does after its `requests.post`:
an exception caught by the `except` clause, a silent fall-through to the next
iteration (the `if candidate and ...` test failed), a `return` of the answer
string, or an exception the `except` clause does not catch. -/
inductive StepResult where
  | caught
  | fallthrough
  | success (s : String)
  | uncaught (e : String)
  deriving Repr, DecidableEq

/-- The body of one iteration of the retry loop of `get_gemini_response`
(main.py lines 68-99), given the attempt's outcome.
`transportError`/`parseError` are the two exception classes the `except`
clause catches.  For a parsed body: `result.get('candidates', [{}])[0]`
raises `IndexError` on a present-but-empty list and yields the falsy `{}`
when the key is absent; the guard `candidate and candidate.get('content')
and candidate['content']['parts']` falls through when the candidate or its
content is falsy or the parts list is empty, and raises `KeyError` when the
content dict is non-empty but lacks `'parts'`.  On success the answer is
`parts[0].get('text', meta['placeholder_fail'])` plus the citations block. -/
def runAttempt : AttemptOutcome → StepResult
  | .transportError => .caught
  | .parseError => .caught
  | .body r =>
    match r.candidates with
    | none => .fallthrough
    | some [] => .uncaught "IndexError"
    | some (candidate :: _) =>
      match candidate.content with
      | none => .fallthrough
      | some content =>
        if content.parts.isSome || content.otherKeys then
          match content.parts with
          | none => .uncaught "KeyError"
          | some [] => .fallthrough
          | some (p0 :: _) =>
            .success (p0.text.getD meta_placeholder_fail ++ citationsBlock (sourcesOf candidate))
        else .fallthrough

/-- Observable result of a call to `get_gemini_response`: how many network
posts were issued, the `time.sleep` durations in order, and the returned
string or the uncaught exception. -/
structure FetchResult where
  calls : Nat
  waits : List Nat
  outcome : PyResult String
  deriving Repr, DecidableEq

/-- The `for attempt in range(max_retries)` loop of `get_gemini_response`
(main.py lines 67-111), as a recursion on the number of iterations still to
run (`remaining = max_retries - attempt`; the loop starts at
`fetchGo env max_retries 0 []`).  A caught exception sleeps `2 ** attempt`
and retries while `attempt < max_retries - 1` (i.e. `1 ≤ remaining` after
this iteration), else returns `meta['api_fail']`; falling out of the loop
returns `meta['placeholder_fail']` (line 111). -/
def fetchGo (env : Nat → AttemptOutcome) : Nat → Nat → List Nat → FetchResult
  | 0, attempt, waits =>
    { calls := attempt, waits := waits, outcome := .ok meta_placeholder_fail }
  | remaining + 1, attempt, waits =>
    match runAttempt (env attempt) with
    | .success s => { calls := attempt + 1, waits := waits, outcome := .ok s }
    | .uncaught e => { calls := attempt + 1, waits := waits, outcome := .exn e }
    | .fallthrough => fetchGo env remaining (attempt + 1) waits
    | .caught =>
      if 1 ≤ remaining then fetchGo env remaining (attempt + 1) (waits ++ [2 ^ attempt])
      else { calls := attempt + 1, waits := waits, outcome := .ok meta_api_fail }

/-- The function `get_gemini_response(query)` of main.py (lines 37-111).
`apiKey` is the value of the global `API_KEY` at call time; `if not API_KEY`
is the emptiness test on that string, returning `meta['api_fail']` before
any network call.  Otherwise the retry loop runs with `max_retries = 3`.
The `query` only shapes the request payload, never the control flow. -/
def get_gemini_response (query apiKey : String) (env : Nat → AttemptOutcome) : FetchResult :=
  if apiKey = "" then { calls := 0, waits := [], outcome := .ok meta_api_fail }
  else fetchGo env 3 0 []

/-- One entry of `st.session_state.messages`: a `{"role": ..., "text": ...}`
dict; the code uses the role strings `"user"` and `"bot"`. -/
structure Message where
  role : String
  text : String
  deriving Repr, DecidableEq

/-- Observable result of a call to `process_query`: the transcript after the
call, the network calls and sleeps of the inner fetch, and the exception, if
one escaped (in which case the user message is already appended but the bot
message is not). -/
structure SubmitResult where
  messages : List Message
  calls : Nat
  waits : List Nat
  raised : Option String
  deriving Repr, DecidableEq

/-- The nested function `process_query(user_query)` of `app` (main.py lines
147-159).  `if not user_query: return` tests Python falsiness of the string,
i.e. exactly the empty string — no whitespace trimming happens.  Otherwise
the user message is appended, `get_gemini_response` runs, and its return
value is appended as the bot message. -/
def process_query (user_query apiKey : String) (env : Nat → AttemptOutcome)
    (messages : List Message) : SubmitResult :=
  if user_query = "" then
    { messages := messages, calls := 0, waits := [], raised := none }
  else
    let afterUser := messages ++ [{ role := "user", text := user_query }]
    let fr := get_gemini_response user_query apiKey env
    match fr.outcome with
    | .ok response =>
      { messages := afterUser ++ [{ role := "bot", text := response }],
        calls := fr.calls, waits := fr.waits, raised := none }
    | .exn e =>
      { messages := afterUser, calls := fr.calls, waits := fr.waits, raised := some e }

/-- Session-state initialization of `app` (main.py lines 134-135): when the
`"messages"` key is absent from `st.session_state`, the transcript becomes
the single bot message with `meta["initial_greeting"]`; an existing
transcript is kept as is. -/
def init_messages : Option (List Message) → List Message
  | none => [{ role := "bot", text := meta_initial_greeting }]
  | some msgs => msgs

/-! ### Spec-side view of citation extraction

The source builds the citations as a string; the definitions below give the
structured list of citations that string renders, so that deduplication,
capping, ordering and titling can be stated.  `citeLoop_eq_rendered` ties
the two together. -/

/-- The uri an attribution contributes, if any: present and non-empty
(the truthiness test `if uri` of the source). -/
def attributionUri (source : Attribution) : Option String :=
  match (source.web.getD { uri := none, title := none }).uri with
  | none => none
  | some u => if u = "" then none else some u

/-- The truthy uris of a list of attributions, in order. -/
def nonEmptyUris (sources : List Attribution) : List String :=
  sources.filterMap attributionUri

/-- First occurrence of each string, scanning left to right past an initial
set of already-seen strings; states the "order first encountered" part of the
spec's citation contract. -/
def firstOccurrences : List String → List String → List String
  | [], _ => []
  | u :: rest, seen =>
    if u ∈ seen then firstOccurrences rest seen
    else u :: firstOccurrences rest (u :: seen)

/-- Structured contents of `citeLoop`: the citations the loop renders, in
order, with the same guard, deduplication and break logic. -/
def extractCitations : List Attribution → List String → List Citation
  | [], _ => []
  | source :: rest, unique_uris =>
    let w := source.web.getD { uri := none, title := none }
    match w.uri with
    | none => extractCitations rest unique_uris
    | some uri =>
      if uri ≠ "" ∧ uri ∉ unique_uris then
        if 3 ≤ (uri :: unique_uris).length then [{ title := w.title.getD "Link", uri := uri }]
        else { title := w.title.getD "Link", uri := uri } :: extractCitations rest (uri :: unique_uris)
      else extractCitations rest unique_uris

/-- The markdown line `citeLoop` appends for one citation. -/
def renderCitation (c : Citation) : String :=
  "- [" ++ c.title ++ "](" ++ c.uri ++ ")\n"

/-- Concatenation of the rendered citation lines. -/
def renderedCitations (cs : List Citation) : String :=
  cs.foldr (fun c acc => renderCitation c ++ acc) ""

/-- A parseable 2xx body on which the `if candidate and ...` guard silently
fails: the `candidates` key is absent, or the first candidate has no (or a
falsy) content, or the content's parts list is present but empty, or the
content is the falsy empty dict. -/
def degenerateBody (r : GeminiResponse) : Prop :=
  r.candidates = none ∨
    ∃ cand rest, r.candidates = some (cand :: rest) ∧
      (cand.content = none ∨
        ∃ ct, cand.content = some ct ∧
          (ct.parts = some [] ∨ (ct.parts = none ∧ ct.otherKeys = false)))

/-! ### Concrete inputs used by counterexamples and witnesses -/

/-- A grounding attribution whose `web` dict has neither uri nor title. -/
def attrNoUri : Attribution := { web := some { uri := none, title := none } }

/-- A well-formed success body whose single grounding attribution lacks a
uri: the code still appends the `**Sources:**` header for it. -/
def respNoUriSources : GeminiResponse :=
  { candidates := some
      [{ content := some { parts := some [{ text := some "Answer" }], otherKeys := false },
         groundingMetadata := some { groundingAttributions := some [attrNoUri] } }] }

/-- A candidate carrying the answer text `"Answer"` and no grounding. -/
def candPlainAnswer : Candidate :=
  { content := some { parts := some [{ text := some "Answer" }], otherKeys := false },
    groundingMetadata := none }

/-- Environment whose every attempt yields the `candPlainAnswer` body. -/
def envPlainAnswer : Nat → AttemptOutcome :=
  fun _ => AttemptOutcome.body { candidates := some [candPlainAnswer] }

/-- A candidate whose first part has no `text` key. -/
def candNoText : Candidate :=
  { content := some { parts := some [{ text := none }], otherKeys := false },
    groundingMetadata := none }

/-- A candidate whose non-empty content dict lacks the `parts` key: indexing
`candidate['content']['parts']` raises `KeyError`. -/
def candContentNoParts : Candidate :=
  { content := some { parts := none, otherKeys := true }, groundingMetadata := none }

theorem citeLoop_eq_rendered (sources : List Attribution) :
    ∀ citations unique_uris,
      citeLoop sources citations unique_uris =
        citations ++ renderedCitations (extractCitations sources unique_uris) := by
  induction sources with
  | nil =>
    intro citations unique_uris
    simp [citeLoop, extractCitations, renderedCitations, String.append_empty]
  | cons source rest ih =>
    intro citations unique_uris
    simp only [citeLoop, extractCitations]
    cases h : (source.web.getD { uri := none, title := none }).uri with
    | none => simp only [h]; exact ih citations unique_uris
    | some uri =>
      simp only [h]
      by_cases hc : uri ≠ "" ∧ uri ∉ unique_uris
      · simp only [if_pos hc]
        by_cases hb : 3 ≤ (uri :: unique_uris).length
        · simp only [if_pos hb, renderedCitations, renderCitation, List.foldr]
          simp [String.append_assoc, String.append_empty]
        · simp only [if_neg hb]
          rw [ih]
          simp only [renderedCitations, renderCitation, List.foldr]
          simp [String.append_assoc]
      · simp only [if_neg hc]; exact ih citations unique_uris

theorem extractCitations_length (sources : List Attribution) :
    ∀ unique_uris : List String, unique_uris.length ≤ 2 →
      (extractCitations sources unique_uris).length + unique_uris.length ≤ 3 := by
  induction sources with
  | nil => intro seen hseen; simp only [extractCitations, List.length_nil]; omega
  | cons source rest ih =>
    intro seen hseen
    simp only [extractCitations]
    cases h : (source.web.getD { uri := none, title := none }).uri with
    | none => simp only [h]; exact ih seen hseen
    | some uri =>
      simp only [h]
      by_cases hc : uri ≠ "" ∧ uri ∉ seen
      · simp only [if_pos hc]
        split
        · simp only [List.length_singleton]; omega
        · rename_i hb
          simp only [List.length_cons] at hb
          have := ih (uri :: seen) (by simp only [List.length_cons]; omega)
          simp only [List.length_cons] at this ⊢
          omega
      · simp only [if_neg hc]; exact ih seen hseen

theorem extractCitations_uris (sources : List Attribution) :
    ∀ unique_uris : List String,
      (∀ c ∈ extractCitations sources unique_uris, c.uri ∉ unique_uris ∧ c.uri ≠ "") ∧
      ((extractCitations sources unique_uris).map (fun c => c.uri)).Nodup := by
  induction sources with
  | nil => intro seen; simp [extractCitations]
  | cons source rest ih =>
    intro seen
    simp only [extractCitations]
    cases h : (source.web.getD { uri := none, title := none }).uri with
    | none => simp only [h]; exact ih seen
    | some uri =>
      simp only [h]
      by_cases hc : uri ≠ "" ∧ uri ∉ seen
      · simp only [if_pos hc]
        by_cases hb : 3 ≤ (uri :: seen).length
        · simp only [if_pos hb]
          refine ⟨?_, by simp⟩
          intro c hcmem
          rcases List.mem_singleton.mp hcmem with rfl
          exact ⟨hc.2, hc.1⟩
        · simp only [if_neg hb]
          obtain ⟨ihmem, ihnodup⟩ := ih (uri :: seen)
          constructor
          · intro c hcmem
            rcases List.mem_cons.mp hcmem with rfl | hcm
            · exact ⟨hc.2, hc.1⟩
            · have hfresh := ihmem c hcm
              exact ⟨fun hk => hfresh.1 (List.mem_cons_of_mem _ hk), hfresh.2⟩
          · simp only [List.map_cons, List.nodup_cons]
            refine ⟨?_, ihnodup⟩
            intro hmem
            obtain ⟨c, hcm, hcu⟩ := List.mem_map.mp hmem
            exact (ihmem c hcm).1 (hcu ▸ List.mem_cons_self _ _)
      · simp only [if_neg hc]; exact ih seen

theorem extractCitations_order (sources : List Attribution) :
    ∀ unique_uris : List String, unique_uris.length ≤ 2 →
      (extractCitations sources unique_uris).map (fun c => c.uri) =
        (firstOccurrences (nonEmptyUris sources) unique_uris).take (3 - unique_uris.length) := by
  induction sources with
  | nil => intro seen hseen; simp [extractCitations, nonEmptyUris, firstOccurrences]
  | cons source rest ih =>
    intro seen hseen
    simp only [extractCitations, nonEmptyUris, List.filterMap_cons]
    cases h : (source.web.getD { uri := none, title := none }).uri with
    | none =>
      have ha : attributionUri source = none := by simp [attributionUri, h]
      simp only [h, ha]
      exact ih seen hseen
    | some uri =>
      simp only [h]
      by_cases he : uri = ""
      · have ha : attributionUri source = none := by simp [attributionUri, h, he]
        have hc : ¬(uri ≠ "" ∧ uri ∉ seen) := by simp [he]
        simp only [ha, if_neg hc]
        exact ih seen hseen
      · have ha : attributionUri source = some uri := by simp [attributionUri, h, he]
        simp only [ha]
        by_cases hm : uri ∈ seen
        · have hc : ¬(uri ≠ "" ∧ uri ∉ seen) := by simp [hm]
          simp only [if_neg hc, firstOccurrences, if_pos hm]
          exact ih seen hseen
        · have hc : uri ≠ "" ∧ uri ∉ seen := ⟨he, hm⟩
          simp only [if_pos hc, firstOccurrences, if_neg hm]
          by_cases hb : 3 ≤ (uri :: seen).length
          · simp only [if_pos hb, List.map_cons, List.map_nil]
            have hlen : seen.length = 2 := by
              simp only [List.length_cons] at hb; omega
            rw [hlen]
            norm_num
          · simp only [if_neg hb, List.map_cons]
            have hlen : seen.length ≤ 1 := by
              simp only [List.length_cons] at hb; omega
            rw [ih (uri :: seen) (by simp only [List.length_cons]; omega)]
            rw [show 3 - seen.length = (3 - (uri :: seen).length) + 1 by
              simp only [List.length_cons]; omega]
            rw [List.take_succ_cons]
            rfl

theorem extractCitations_provenance (sources : List Attribution) :
    ∀ unique_uris : List String, ∀ c ∈ extractCitations sources unique_uris,
      ∃ a ∈ sources, ∃ w, a.web = some w ∧ w.uri = some c.uri ∧
        c.title = w.title.getD "Link" := by
  induction sources with
  | nil => intro seen c hcmem; simp [extractCitations] at hcmem
  | cons source rest ih =>
    intro seen c hcmem
    simp only [extractCitations] at hcmem
    cases h : (source.web.getD { uri := none, title := none }).uri with
    | none =>
      simp only [h] at hcmem
      obtain ⟨a, hmem, hrest⟩ := ih seen c hcmem
      exact ⟨a, List.mem_cons_of_mem _ hmem, hrest⟩
    | some uri =>
      simp only [h] at hcmem
      have hweb : ∃ w, source.web = some w ∧ w.uri = some uri ∧
          w.title = (source.web.getD { uri := none, title := none }).title := by
        cases hw : source.web with
        | none => rw [hw] at h; simp [Option.getD] at h
        | some w => rw [hw] at h; exact ⟨w, rfl, by simpa using h, rfl⟩
      by_cases hc : uri ≠ "" ∧ uri ∉ seen
      · simp only [if_pos hc] at hcmem
        by_cases hb : 3 ≤ (uri :: seen).length
        · simp only [if_pos hb, List.mem_singleton] at hcmem
          obtain ⟨w, hw, hwr, hwt⟩ := hweb
          subst hcmem
          exact ⟨source, List.mem_cons_self _ _, w, hw, hwr, by rw [hwt]⟩
        · simp only [if_neg hb, List.mem_cons] at hcmem
          rcases hcmem with rfl | hcm
          · obtain ⟨w, hw, hwr, hwt⟩ := hweb
            exact ⟨source, List.mem_cons_self _ _, w, hw, hwr, by rw [hwt]⟩
          · obtain ⟨a, hmem, hrest⟩ := ih (uri :: seen) c hcm
            exact ⟨a, List.mem_cons_of_mem _ hmem, hrest⟩
      · simp only [if_neg hc] at hcmem
        obtain ⟨a, hmem, hrest⟩ := ih seen c hcmem
        exact ⟨a, List.mem_cons_of_mem _ hmem, hrest⟩

/-! ### Unfolding lemmas for the retry loop -/

theorem fetchGo_succ (env : Nat → AttemptOutcome) (remaining attempt : Nat) (waits : List Nat) :
    fetchGo env (remaining + 1) attempt waits =
      match runAttempt (env attempt) with
      | .success s => { calls := attempt + 1, waits := waits, outcome := .ok s }
      | .uncaught e => { calls := attempt + 1, waits := waits, outcome := .exn e }
      | .fallthrough => fetchGo env remaining (attempt + 1) waits
      | .caught =>
        if 1 ≤ remaining then fetchGo env remaining (attempt + 1) (waits ++ [2 ^ attempt])
        else { calls := attempt + 1, waits := waits, outcome := .ok meta_api_fail } := rfl

theorem fetchGo_step_success (env : Nat → AttemptOutcome) (remaining attempt : Nat)
    (waits : List Nat) (s : String) (h : runAttempt (env attempt) = StepResult.success s) :
    fetchGo env (remaining + 1) attempt waits =
      { calls := attempt + 1, waits := waits, outcome := .ok s } := by
  rw [fetchGo_succ, h]

theorem fetchGo_step_uncaught (env : Nat → AttemptOutcome) (remaining attempt : Nat)
    (waits : List Nat) (e : String) (h : runAttempt (env attempt) = StepResult.uncaught e) :
    fetchGo env (remaining + 1) attempt waits =
      { calls := attempt + 1, waits := waits, outcome := .exn e } := by
  rw [fetchGo_succ, h]

theorem fetchGo_step_fall (env : Nat → AttemptOutcome) (remaining attempt : Nat)
    (waits : List Nat) (h : runAttempt (env attempt) = StepResult.fallthrough) :
    fetchGo env (remaining + 1) attempt waits = fetchGo env remaining (attempt + 1) waits := by
  rw [fetchGo_succ, h]

theorem fetchGo_step_caught (env : Nat → AttemptOutcome) (remaining attempt : Nat)
    (waits : List Nat) (h : runAttempt (env attempt) = StepResult.caught) :
    fetchGo env (remaining + 1) attempt waits =
      if 1 ≤ remaining then fetchGo env remaining (attempt + 1) (waits ++ [2 ^ attempt])
      else { calls := attempt + 1, waits := waits, outcome := .ok meta_api_fail } := by
  rw [fetchGo_succ, h]

theorem fetchGo_all_caught (env : Nat → AttemptOutcome)
    (h : ∀ i, runAttempt (env i) = StepResult.caught) :
    fetchGo env 3 0 [] =
      { calls := 3, waits := [1, 2], outcome := PyResult.ok meta_api_fail } := by
  have e0 := fetchGo_step_caught env 2 0 [] (h 0)
  have e1 := fetchGo_step_caught env 1 1 [1] (h 1)
  have e2 := fetchGo_step_caught env 0 2 [1, 2] (h 2)
  norm_num at e0 e1 e2
  rw [e0, e1, e2]

theorem fetchGo_all_fallthrough (env : Nat → AttemptOutcome)
    (h : ∀ i, runAttempt (env i) = StepResult.fallthrough) :
    fetchGo env 3 0 [] =
      { calls := 3, waits := [], outcome := PyResult.ok meta_placeholder_fail } := by
  have e0 := fetchGo_step_fall env 2 0 [] (h 0)
  have e1 := fetchGo_step_fall env 1 1 [] (h 1)
  have e2 := fetchGo_step_fall env 0 2 [] (h 2)
  norm_num at e0 e1 e2
  rw [e0, e1, e2]
  rfl

theorem fetchGo_first_success (env : Nat → AttemptOutcome) (s : String)
    (h : runAttempt (env 0) = StepResult.success s) :
    fetchGo env 3 0 [] = { calls := 1, waits := [], outcome := PyResult.ok s } := by
  have e0 := fetchGo_step_success env 2 0 [] s h
  norm_num at e0
  exact e0

/-- Characterization of a successful attempt: a candidate whose content has a
non-empty parts list returns the first part's text (or the placeholder) plus
the citations block. -/
theorem runAttempt_success_eq (cand : Candidate) (rest : List Candidate) (ct : Content)
    (p : ContentPart) (ps : List ContentPart)
    (hcontent : cand.content = some ct) (hparts : ct.parts = some (p :: ps)) :
    runAttempt (AttemptOutcome.body { candidates := some (cand :: rest) }) =
      StepResult.success (p.text.getD meta_placeholder_fail ++ citationsBlock (sourcesOf cand)) := by
  simp [runAttempt, hcontent, hparts]

theorem runAttempt_fallthrough_of_degenerate (r : GeminiResponse) (h : degenerateBody r) :
    runAttempt (AttemptOutcome.body r) = StepResult.fallthrough := by
  rcases h with h | ⟨cand, rest, hc, hcand⟩
  · simp [runAttempt, h]
  · rcases hcand with hnone | ⟨ct, hct, hparts⟩
    · simp [runAttempt, hc, hnone]
    · rcases hparts with hp | ⟨hp, ho⟩
      · simp [runAttempt, hc, hct, hp]
      · simp [runAttempt, hc, hct, hp, ho]

/-! ### Claim theorems -/

/-- C1 (amended): for the empty input string, `process_query` is a no-op —
the transcript is unchanged, no network call is made and no wait occurs.
(As originally stated the claim also covered whitespace-only input, which
the code does process: see the counterexample.) -/
theorem empty_query_is_noop (apiKey : String) (env : Nat → AttemptOutcome)
    (messages : List Message) :
    process_query "" apiKey env messages =
      { messages := messages, calls := 0, waits := [], raised := none } := by
  simp [process_query]

/-- C1 counterexample: the whitespace-only query `" "` is not a no-op —
`if not user_query` does not trim, so the user message is appended, three
network calls happen, and the apology is appended as the bot message. -/
theorem whitespace_only_query_is_processed :
    (process_query " " "key" (fun _ => AttemptOutcome.transportError) []).messages =
      [{ role := "user", text := " " }, { role := "bot", text := meta_api_fail }] ∧
    (process_query " " "key" (fun _ => AttemptOutcome.transportError) []).calls = 3 := by
  decide

/-- C2 (amended): a response body that cannot be parsed as JSON is treated
identically to a transport error for retry purposes — any mixture of parse
failures and transport failures over the 3 attempts waits 1 then 2 time
units and finally returns the fixed apology text.  (A parseable body that
merely lacks the expected shape is not handled this way: see the
counterexample.) -/
theorem unparseable_body_retried_with_backoff (query apiKey : String)
    (env : Nat → AttemptOutcome) (hkey : apiKey ≠ "")
    (henv : ∀ i, env i = AttemptOutcome.parseError ∨ env i = AttemptOutcome.transportError) :
    get_gemini_response query apiKey env =
      { calls := 3, waits := [1, 2], outcome := PyResult.ok meta_api_fail } := by
  have hstep : ∀ i, runAttempt (env i) = StepResult.caught := by
    intro i; rcases henv i with h | h <;> rw [h] <;> rfl
  simp only [get_gemini_response]
  rw [if_neg hkey]
  exact fetchGo_all_caught env hstep

theorem unparseable_body_retried_with_backoff_witness :
    get_gemini_response "q" "key" (fun _ => AttemptOutcome.parseError) =
      { calls := 3, waits := [1, 2], outcome := PyResult.ok meta_api_fail } :=
  unparseable_body_retried_with_backoff "q" "key" (fun _ => AttemptOutcome.parseError)
    (by decide) (fun _ => Or.inl rfl)

/-- C2 counterexample: a parseable 2xx body with an empty `candidates` list
is not retried — `result.get('candidates', [{}])[0]` raises an `IndexError`
the `except` clause does not catch, after a single network call, and the
apology text is never returned. -/
theorem empty_candidates_raises_uncaught_indexerror :
    get_gemini_response "q" "key" (fun _ => AttemptOutcome.body { candidates := some [] }) =
      { calls := 1, waits := [], outcome := PyResult.exn "IndexError" } := by
  decide

/-- C3 (amended): a successful response returns the answer text with the
citations block appended, and that block is empty exactly when the grounding
attributions list is empty — in particular the text is returned unmodified
when there are no attributions, but a non-empty attributions list yields a
`**Sources:**` header even when no attribution has a uri (see the
counterexample). -/
theorem sources_section_iff_attributions_nonempty (query apiKey t : String)
    (cand : Candidate) (rest : List Candidate) (ct : Content) (p : ContentPart)
    (ps : List ContentPart) (env : Nat → AttemptOutcome)
    (hkey : apiKey ≠ "")
    (h0 : env 0 = AttemptOutcome.body { candidates := some (cand :: rest) })
    (hcontent : cand.content = some ct) (hparts : ct.parts = some (p :: ps))
    (htext : p.text = some t) :
    get_gemini_response query apiKey env =
      { calls := 1, waits := [],
        outcome := PyResult.ok (t ++ citationsBlock (sourcesOf cand)) } ∧
    (sourcesOf cand = [] → t ++ citationsBlock (sourcesOf cand) = t) ∧
    (citationsBlock (sourcesOf cand) = "" ↔ sourcesOf cand = []) := by
  refine ⟨?_, ?_, ?_, ?_⟩
  · have hs : runAttempt (env 0) =
        StepResult.success (t ++ citationsBlock (sourcesOf cand)) := by
      rw [h0, runAttempt_success_eq cand rest ct p ps hcontent hparts, htext]
      rfl
    simp only [get_gemini_response]
    rw [if_neg hkey]
    exact fetchGo_first_success env _ hs
  · intro h
    rw [h]
    simp [citationsBlock, String.append_empty]
  · intro hblock
    by_contra hne
    rw [citationsBlock, if_neg hne] at hblock
    have hlen := congrArg String.length hblock
    rw [String.length_append, String.length_empty] at hlen
    have h19 : ("\n\n---\n**Sources:**\n" : String).length = 19 := by decide
    rw [h19] at hlen
    omega
  · intro h
    simp [citationsBlock, h]

theorem sources_section_iff_attributions_nonempty_witness :
    get_gemini_response "q" "key" envPlainAnswer =
      { calls := 1, waits := [],
        outcome := PyResult.ok ("Answer" ++ citationsBlock (sourcesOf candPlainAnswer)) } ∧
    (sourcesOf candPlainAnswer = [] →
      "Answer" ++ citationsBlock (sourcesOf candPlainAnswer) = "Answer") ∧
    (citationsBlock (sourcesOf candPlainAnswer) = "" ↔ sourcesOf candPlainAnswer = []) :=
  sources_section_iff_attributions_nonempty "q" "key" "Answer" candPlainAnswer []
    { parts := some [{ text := some "Answer" }], otherKeys := false }
    { text := some "Answer" } [] envPlainAnswer (by decide) rfl rfl rfl rfl

/-- C3 counterexample: attributions present but none with a uri — the answer
comes back with the `**Sources:**` header appended although the extracted
citation list is empty, so the text is not returned unmodified. -/
theorem sources_header_appended_without_citations :
    get_gemini_response "q" "key" (fun _ => AttemptOutcome.body respNoUriSources) =
      { calls := 1, waits := [],
        outcome := PyResult.ok ("Answer" ++ "\n\n---\n**Sources:**\n") } ∧
    extractCitations [attrNoUri] [] = [] := by
  decide

/-- C4: a transport that fails on every attempt makes exactly 3 network
calls, waits `2 ^ 0 = 1` then `2 ^ 1 = 2` time units between consecutive
attempts with no wait after the third, and returns the fixed apology. -/
theorem permanent_transport_failure_three_attempts (query apiKey : String)
    (env : Nat → AttemptOutcome) (hkey : apiKey ≠ "")
    (henv : ∀ i, env i = AttemptOutcome.transportError) :
    get_gemini_response query apiKey env =
      { calls := 3, waits := [1, 2], outcome := PyResult.ok meta_api_fail } := by
  have hstep : ∀ i, runAttempt (env i) = StepResult.caught := by
    intro i; rw [henv i]; rfl
  simp only [get_gemini_response]
  rw [if_neg hkey]
  exact fetchGo_all_caught env hstep

theorem permanent_transport_failure_three_attempts_witness :
    get_gemini_response "q" "key" (fun _ => AttemptOutcome.transportError) =
      { calls := 3, waits := [1, 2], outcome := PyResult.ok meta_api_fail } :=
  permanent_transport_failure_three_attempts "q" "key" (fun _ => AttemptOutcome.transportError)
    (by decide) (fun _ => rfl)

/-- C5: with the credential absent (empty `API_KEY`), `get_gemini_response`
returns the fixed apology immediately: zero network calls, zero waits. -/
theorem missing_credential_short_circuits (query : String) (env : Nat → AttemptOutcome) :
    get_gemini_response query "" env =
      { calls := 0, waits := [], outcome := PyResult.ok meta_api_fail } := rfl

/-- C6: the extracted citation list is capped at 3 entries, its uris are
distinct and non-empty, it lists the first occurrence of each uri in
encounter order (`take 3` of the first-occurrence sequence of the truthy
uris), every entry's title comes from its attribution with `"Link"` as the
default, and the code's citations string is exactly these entries
rendered. -/
theorem citation_extraction_contract (sources : List Attribution) :
    (extractCitations sources []).length ≤ 3 ∧
    ((extractCitations sources []).map (fun c => c.uri)).Nodup ∧
    (∀ c ∈ extractCitations sources [], c.uri ≠ "") ∧
    (extractCitations sources []).map (fun c => c.uri) =
      (firstOccurrences (nonEmptyUris sources) []).take 3 ∧
    (∀ c ∈ extractCitations sources [], ∃ a ∈ sources, ∃ w, a.web = some w ∧
      w.uri = some c.uri ∧ c.title = w.title.getD "Link") ∧
    citeLoop sources "" [] = renderedCitations (extractCitations sources []) := by
  refine ⟨?_, (extractCitations_uris sources []).2, ?_, ?_,
    extractCitations_provenance sources [], ?_⟩
  · have := extractCitations_length sources [] (by simp)
    simpa using this
  · intro c hc
    exact ((extractCitations_uris sources []).1 c hc).2
  · have := extractCitations_order sources [] (by simp)
    simpa using this
  · have := citeLoop_eq_rendered sources "" []
    rw [String.empty_append] at this
    exact this

/-- C7: a non-empty submitted query whose fetch resolves grows the
transcript by exactly two messages — the user message then the bot message —
with all earlier messages unchanged, in order. -/
theorem submit_appends_user_then_bot (user_query apiKey r : String)
    (env : Nat → AttemptOutcome) (messages : List Message)
    (hq : user_query ≠ "")
    (hok : (get_gemini_response user_query apiKey env).outcome = PyResult.ok r) :
    (process_query user_query apiKey env messages).messages =
      messages ++ [{ role := "user", text := user_query }, { role := "bot", text := r }] := by
  simp only [process_query]
  rw [if_neg hq]
  simp only [hok]
  simp

theorem submit_appends_user_then_bot_witness :
    (process_query "hi" "" (fun _ => AttemptOutcome.transportError) []).messages =
      [] ++ [{ role := "user", text := "hi" }, { role := "bot", text := meta_api_fail }] :=
  submit_appends_user_then_bot "hi" "" meta_api_fail (fun _ => AttemptOutcome.transportError)
    [] (by decide) rfl

/-- C8: a structurally valid successful response whose first part has no
text field resolves with the fixed placeholder as an ordinary success — one
network call, no wait, no apology and no exception. -/
theorem no_usable_text_resolves_with_placeholder (query apiKey : String)
    (cand : Candidate) (rest : List Candidate) (ct : Content) (p : ContentPart)
    (ps : List ContentPart) (env : Nat → AttemptOutcome)
    (hkey : apiKey ≠ "")
    (h0 : env 0 = AttemptOutcome.body { candidates := some (cand :: rest) })
    (hcontent : cand.content = some ct) (hparts : ct.parts = some (p :: ps))
    (htext : p.text = none) (hsrc : sourcesOf cand = []) :
    get_gemini_response query apiKey env =
      { calls := 1, waits := [], outcome := PyResult.ok meta_placeholder_fail } := by
  have hs : runAttempt (env 0) = StepResult.success meta_placeholder_fail := by
    rw [h0, runAttempt_success_eq cand rest ct p ps hcontent hparts, htext, hsrc]
    simp [citationsBlock, String.append_empty]
  simp only [get_gemini_response]
  rw [if_neg hkey]
  exact fetchGo_first_success env _ hs

theorem no_usable_text_resolves_with_placeholder_witness :
    get_gemini_response "q" "key" (fun _ => AttemptOutcome.body { candidates := some [candNoText] }) =
      { calls := 1, waits := [], outcome := PyResult.ok meta_placeholder_fail } :=
  no_usable_text_resolves_with_placeholder "q" "key" candNoText []
    { parts := some [{ text := none }], otherKeys := false } { text := none } []
    (fun _ => AttemptOutcome.body { candidates := some [candNoText] })
    (by decide) rfl rfl rfl rfl rfl

/-- C9 (amended): when every attempt returns 2xx parseable JSON whose
`candidates` key is absent, or whose first candidate has no (or falsy)
content or an empty parts list, each iteration neither returns nor sleeps:
3 network calls are issued with no waits between them and the placeholder is
returned.  (A first candidate whose non-empty content lacks the `parts` key
instead raises an uncaught `KeyError`: see the counterexample.) -/
theorem degenerate_success_retries_without_wait (query apiKey : String)
    (env : Nat → AttemptOutcome) (hkey : apiKey ≠ "")
    (henv : ∀ i, ∃ r, env i = AttemptOutcome.body r ∧ degenerateBody r) :
    get_gemini_response query apiKey env =
      { calls := 3, waits := [], outcome := PyResult.ok meta_placeholder_fail } := by
  have hstep : ∀ i, runAttempt (env i) = StepResult.fallthrough := by
    intro i
    obtain ⟨r, hr, hdeg⟩ := henv i
    rw [hr]
    exact runAttempt_fallthrough_of_degenerate r hdeg
  simp only [get_gemini_response]
  rw [if_neg hkey]
  exact fetchGo_all_fallthrough env hstep

theorem degenerate_success_retries_without_wait_witness :
    get_gemini_response "q" "key" (fun _ => AttemptOutcome.body { candidates := none }) =
      { calls := 3, waits := [], outcome := PyResult.ok meta_placeholder_fail } :=
  degenerate_success_retries_without_wait "q" "key"
    (fun _ => AttemptOutcome.body { candidates := none }) (by decide)
    (fun _ => ⟨{ candidates := none }, rfl, Or.inl rfl⟩)

/-- C9 counterexample: a 2xx body whose first candidate's non-empty content
lacks the `parts` key does not trigger an immediate retry — it raises an
uncaught `KeyError` after a single network call. -/
theorem content_without_parts_raises_uncaught_keyerror :
    get_gemini_response "q" "key"
      (fun _ => AttemptOutcome.body { candidates := some [candContentNoParts] }) =
      { calls := 1, waits := [], outcome := PyResult.exn "KeyError" } := by
  decide

/-- C10: before any submit is processed the freshly initialized transcript is
exactly one message, a bot (assistant) message carrying the fixed greeting. -/
theorem transcript_initialized_with_greeting :
    init_messages none = [{ role := "bot", text := meta_initial_greeting }] ∧
    (init_messages none).length = 1 ∧
    ∀ m ∈ init_messages none, m.role = "bot" := by
  decide
